import Mathlib

/-!
Verification development for the topic-addressing and messaging-session core of
the vscode-pulsar-client extension.

Strings are modelled as lists of characters (`Str`), so that the JavaScript
string operations used by the source (`split`, `startsWith`, regular-expression
matches on concrete patterns, `encodeURIComponent`, base64 encoding) become
executable Lean functions that can be evaluated on concrete inputs and reasoned
about by induction.  Each definition is a direct translation of the named
source function; external effects (HTTP requests, WebSocket handles, the
webview) are represented by the data the code computes for them (request
paths, connection URLs, outbound frames).
-/

/-- JavaScript strings, modelled as lists of characters. -/
abbrev Str := List Char

/-- `s.split(sep)` for a one-character separator, with JavaScript semantics:
the result always has one more element than the number of separators, and
`"".split(sep)` is `[""]`. -/
def splitOnChar (sep : Char) : Str → List Str
  | [] => [[]]
  | c :: cs =>
    let rest := splitOnChar sep cs
    if c = sep then
      [] :: rest
    else
      match rest with
      | [] => [[c]]
      | r :: rs => (c :: r) :: rs

/-- Join a list of segments with a one-character separator (inverse of
`splitOnChar` on its output). -/
def joinWithChar (sep : Char) : List Str → Str
  | [] => []
  | [s] => s
  | s :: rest => s ++ sep :: joinWithChar sep rest

/-- JavaScript line terminators, which `.` in a regular expression (without the
`s` flag) does not match: LF, CR, LINE SEPARATOR, PARAGRAPH SEPARATOR. -/
def isLineTerminator (c : Char) : Bool :=
  c = Char.ofNat 10 || c = Char.ofNat 13 || c = Char.ofNat 0x2028 || c = Char.ofNat 0x2029

/-- ASCII decimal digit test (`\d` for the patterns used by the source). -/
def isDigitChar (c : Char) : Bool :=
  48 ≤ c.toNat && c.toNat ≤ 57

/-- Decimal rendering of a natural number, as used by template-literal
interpolation of numbers in the source. -/
def natToStr (n : Nat) : Str :=
  (Nat.repr n).data

/-- Characters that `encodeURIComponent` leaves unescaped:
`A-Z a-z 0-9 - _ . ! ~ * ' ( )`. -/
def uriUnescapedChar (c : Char) : Bool :=
  (65 ≤ c.toNat && c.toNat ≤ 90) || (97 ≤ c.toNat && c.toNat ≤ 122) ||
  (48 ≤ c.toNat && c.toNat ≤ 57) ||
  c = '-' || c = '_' || c = '.' || c = '!' || c = '~' || c = '*' ||
  c = Char.ofNat 39 || c = '(' || c = ')'

/-- UTF-8 encoding of one code point (standard 1- to 4-byte form). -/
def utf8BytesOfChar (c : Char) : List Nat :=
  let n := c.toNat
  if n < 0x80 then [n]
  else if n < 0x800 then
    [0xC0 + n / 64, 0x80 + n % 64]
  else if n < 0x10000 then
    [0xE0 + n / 4096, 0x80 + n / 64 % 64, 0x80 + n % 64]
  else
    [0xF0 + n / 262144, 0x80 + n / 4096 % 64, 0x80 + n / 64 % 64, 0x80 + n % 64]

/-- UTF-8 byte sequence of a string (what `Buffer.from(s)` produces). -/
def utf8Encode (s : Str) : List Nat :=
  (s.map utf8BytesOfChar).flatten

/-- Uppercase hexadecimal digit for a value below 16. -/
def hexDigitChar (n : Nat) : Char :=
  if n < 10 then Char.ofNat (48 + n) else Char.ofNat (55 + n)

/-- JavaScript's `encodeURIComponent`: unescaped characters pass through,
every other character becomes `%XX` percent-escapes of its UTF-8 bytes. -/
def encodeURIComponent (s : Str) : Str :=
  (s.map (fun c =>
    if uriUnescapedChar c then [c]
    else (utf8BytesOfChar c).map (fun b => ['%', hexDigitChar (b / 16), hexDigitChar (b % 16)]) |>.flatten)).flatten

/-- One character of the standard base64 alphabet. -/
def base64AlphabetChar (n : Nat) : Char :=
  if n < 26 then Char.ofNat (65 + n)
  else if n < 52 then Char.ofNat (97 + (n - 26))
  else if n < 62 then Char.ofNat (48 + (n - 52))
  else if n = 62 then '+' else '/'

/-- Standard base64 of a byte sequence, with `=` padding
(what `Buffer.prototype.toString('base64')` produces). -/
def base64Encode : List Nat → Str
  | b1 :: b2 :: b3 :: rest =>
    let n := b1 * 65536 + b2 * 256 + b3
    base64AlphabetChar (n / 262144) :: base64AlphabetChar (n / 4096 % 64) ::
      base64AlphabetChar (n / 64 % 64) :: base64AlphabetChar (n % 64) :: base64Encode rest
  | [b1, b2] =>
    let n := b1 * 256 + b2
    [base64AlphabetChar (n / 1024), base64AlphabetChar (n / 16 % 64),
      base64AlphabetChar (n % 16 * 4), '=']
  | [b1] =>
    [base64AlphabetChar (b1 / 4), base64AlphabetChar (b1 % 4 * 16), '=', '=']
  | [] => []

/-! ## PulsarAdminClient: topic parsing and request paths -/

/-- Result of `PulsarAdminClient.parseTopic`: persistence mode and the three
name components.  The source field `namespace` is a Lean keyword and is
rendered here as `nspace`. -/
structure ParsedTopic where
  persistent : Bool
  tenant : Str
  nspace : Str
  topicName : Str
deriving DecidableEq

/-- The body of the match for
`^(persistent|non-persistent):\/\/([^\/]+)\/([^\/]+)\/(.+)$` after the scheme:
tenant and namespace are the first two nonempty `/`-free segments, the rest
(rejoined on `/`) is the topic name, which must be nonempty and free of line
terminators because `.` does not match them. -/
def topicRegexRest (persistent : Bool) (rest : Str) : Option ParsedTopic :=
  match splitOnChar '/' rest with
  | t :: n :: rs =>
    if rs.isEmpty then none
    else
      let r := joinWithChar '/' rs
      if !t.isEmpty && !n.isEmpty && !r.isEmpty && r.all (fun c => !isLineTerminator c) then
        some ⟨persistent, t, n, r⟩
      else none
  | _ => none

/-- The anchored regular-expression match
`topic.match(/^(persistent|non-persistent):\/\/([^\/]+)\/([^\/]+)\/(.+)$/)`
used by `parseTopic`. -/
def topicAddressMatch (topic : Str) : Option ParsedTopic :=
  if "persistent://".toList.isPrefixOf topic then
    topicRegexRest true (topic.drop 13)
  else if "non-persistent://".toList.isPrefixOf topic then
    topicRegexRest false (topic.drop 17)
  else none

/-- `PulsarAdminClient.parseTopic`: try the fully-qualified regular expression,
then exactly three `/`-delimited segments (assumed persistent), then fall back
to the whole input as a local name under `public/default`.  Total: it never
fails. -/
def parseTopic (topic : Str) : ParsedTopic :=
  match topicAddressMatch topic with
  | some p => p
  | none =>
    match splitOnChar '/' topic with
    | [a, b, c] => ⟨true, a, b, c⟩
    | _ => ⟨true, "public".toList, "default".toList, topic⟩

/-- The `persistent` / `non-persistent` path segment chosen from the parsed
persistence mode. -/
def domainSeg (persistent : Bool) : Str :=
  if persistent then "persistent".toList else "non-persistent".toList

/-- Request path of `PulsarAdminClient.getTenantInfo`:
`/admin/v2/tenants/${encodeURIComponent(tenant)}`. -/
def getTenantInfoPath (tenant : Str) : Str :=
  "/admin/v2/tenants/".toList ++ encodeURIComponent tenant

/-- Request path of `PulsarAdminClient.getNamespacePolicies`:
`/admin/v2/namespaces/${encodeURIComponent(tenant)}/${encodeURIComponent(namespace)}`. -/
def getNamespacePoliciesPath (tenant nspace : Str) : Str :=
  "/admin/v2/namespaces/".toList ++ encodeURIComponent tenant ++
    "/".toList ++ encodeURIComponent nspace

/-- Request path of `PulsarAdminClient.getTopicStats`:
`/admin/v2/${domain}/${tenant}/${namespace}/${topicName}/stats` with the
segments taken from `parseTopic` verbatim. -/
def getTopicStatsPath (topic : Str) : Str :=
  let p := parseTopic topic
  "/admin/v2/".toList ++ domainSeg p.persistent ++ "/".toList ++ p.tenant ++
    "/".toList ++ p.nspace ++ "/".toList ++ p.topicName ++ "/stats".toList

/-- Request path of `PulsarAdminClient.getTopicMetadata`:
`/admin/v2/${domain}/${tenant}/${namespace}/${topicName}/partitions`. -/
def getTopicMetadataPath (topic : Str) : Str :=
  let p := parseTopic topic
  "/admin/v2/".toList ++ domainSeg p.persistent ++ "/".toList ++ p.tenant ++
    "/".toList ++ p.nspace ++ "/".toList ++ p.topicName ++ "/partitions".toList

/-! ## PulsarExplorerProvider: topic enumeration -/

/-- `PulsarExplorerProvider.extractTopicName`: strip a
`(persistent|non-persistent)://tenant/namespace/` scheme, else take the last
`/`-segment (`split('/').pop() || fullTopic`, so an empty last segment falls
back to the whole input). -/
def extractTopicName (fullTopic : Str) : Str :=
  match topicAddressMatch fullTopic with
  | some p => p.topicName
  | none =>
    match (splitOnChar '/' fullTopic).getLast? with
    | some last => if last.isEmpty then fullTopic else last
    | none => fullTopic

/-- One candidate split for `topicName.match(/^(.+)-partition-\d+$/)`: base of
length `i` (nonempty, no line terminators), then the literal `-partition-`,
then one or more digits up to the end. -/
def partitionSplitAt (name : Str) (i : Nat) : Option Str :=
  let base := name.take i
  let rest := name.drop i
  if 1 ≤ i && base.all (fun c => !isLineTerminator c) &&
      "-partition-".toList.isPrefixOf rest then
    let digits := rest.drop 11
    if !digits.isEmpty && digits.all isDigitChar then some base else none
  else none

/-- `topicName.match(/^(.+)-partition-\d+$/)`, returning the captured base
name; greedy `.+` takes the longest valid base. -/
def partitionSuffixMatch (name : Str) : Option Str :=
  ((List.range (name.length + 1)).reverse).findSome? (partitionSplitAt name)

/-- Add to a JavaScript `Set` modelled as an insertion-ordered duplicate-free
list. -/
def setAdd (l : List Str) (x : Str) : List Str :=
  if l.contains x then l else l ++ [x]

/-- `topicPartitions.set(base, (topicPartitions.get(base) || 0) + 1)` on a
`Map` modelled as an insertion-ordered association list. -/
def mapIncrement (m : List (Str × Nat)) (k : Str) : List (Str × Nat) :=
  match m.lookup k with
  | some _ => m.map (fun kv => if kv.1 = k then (kv.1, kv.2 + 1) else kv)
  | none => m ++ [(k, 1)]

/-- Accumulator of the topic-listing loop in
`PulsarExplorerProvider.getTopicNodes`: the deduplicated topic names and the
per-base-name partition counts. -/
structure TopicAccum where
  uniqueTopics : List Str
  topicPartitions : List (Str × Nat)

/-- Body of the loop over the plain topic listing: an entry with a
`-partition-N` suffix only increments its base name's partition count; any
other entry joins the deduplicated set. -/
def processListedTopic (acc : TopicAccum) (topic : Str) : TopicAccum :=
  let topicName := extractTopicName topic
  match partitionSuffixMatch topicName with
  | some base => { acc with topicPartitions := mapIncrement acc.topicPartitions base }
  | none => { acc with uniqueTopics := setAdd acc.uniqueTopics topicName }

/-- Code-unit comparison used by the default JavaScript `Array.sort`
(identical to code-point order for the characters involved here). -/
def strLe : Str → Str → Bool
  | [], _ => true
  | _ :: _, [] => false
  | a :: as, b :: bs =>
    if a.toNat < b.toNat then true
    else if b.toNat < a.toNat then false
    else strLe as bs

/-- Insert into a `strLe`-sorted list. -/
def insertStrSorted (x : Str) : List Str → List Str
  | [] => [x]
  | y :: ys => if strLe x y then x :: y :: ys else y :: insertStrSorted x ys

/-- `Array.from(set).sort()`: sort the deduplicated names. -/
def sortStrList (l : List Str) : List Str :=
  l.foldr insertStrSorted []

/-- The pure core of `PulsarExplorerProvider.getTopicNodes`: from the plain
topic listing and the partitioned-topic listing, produce the sorted
deduplicated topic names, each with its counted partition number
(`topicPartitions.get(name) || 0`). -/
def topicEnumeration (topics partitionedTopics : List Str) : List (Str × Nat) :=
  let acc := topics.foldl processListedTopic ⟨[], []⟩
  let acc := partitionedTopics.foldl
    (fun a t => { a with uniqueTopics := setAdd a.uniqueTopics (extractTopicName t) }) acc
  (sortStrList acc.uniqueTopics).map
    (fun name => (name, (acc.topicPartitions.lookup name).getD 0))

/-! ## PulsarClientManager: cluster registry -/

/-- `PulsarClusterConnection` from `types/pulsar.ts`; optional fields are
`Option`, the string-literal unions are strings. -/
structure PulsarClusterConnection where
  name : Str
  type : Str
  webServiceUrl : Str
  serviceUrl : Option Str
  authMethod : Str
  authToken : Option Str
  oauth2IssuerUrl : Option Str
  oauth2Audience : Option Str
  oauth2PrivateKey : Option Str
  oauth2ClientId : Option Str
  tlsTrustCertsFilePath : Option Str
  tlsAllowInsecure : Option Bool
deriving DecidableEq

/-- The object `saveConfiguration` maps each registered connection to before
persisting: only the six non-secret fields. -/
structure SavedClusterConfig where
  name : Str
  type : Str
  webServiceUrl : Str
  serviceUrl : Option Str
  authMethod : Str
  tlsAllowInsecure : Option Bool
deriving DecidableEq

/-- The per-connection projection inside `saveConfiguration`'s `map`. -/
def savedClusterOf (c : PulsarClusterConnection) : SavedClusterConfig :=
  ⟨c.name, c.type, c.webServiceUrl, c.serviceUrl, c.authMethod, c.tlsAllowInsecure⟩

/-- `PulsarClientManager.saveConfiguration`: persist the registered clusters
(a `Map` modelled, in insertion order, as an association list) with the
token and other secrets dropped. -/
def saveConfiguration (clusters : List (Str × PulsarClusterConnection)) : List SavedClusterConfig :=
  clusters.map (fun kv => savedClusterOf kv.2)

/-- Replace a connection's secret token by `none` (specification-side helper
for comparing registries up to their secrets). -/
def scrubToken (c : PulsarClusterConnection) : PulsarClusterConnection :=
  { c with authToken := none }

/-- `Map.prototype.set`: replace in place if the key exists (preserving
insertion order), else append. -/
def mapSet {α : Type} (m : List (Str × α)) (k : Str) (v : α) : List (Str × α) :=
  match m with
  | [] => [(k, v)]
  | (k1, v1) :: rest => if k1 = k then (k, v) :: rest else (k1, v1) :: mapSet rest k v

/-- Error thrown by a failed admin request: the HTTP status is attached both
as `status` and `statusCode` when the failure was a non-2xx response, and
absent for network-level failures; `message` is the `Error` message
(empty models a missing message). -/
structure ProbeError where
  status : Option Nat
  statusCode : Option Nat
  message : Str
deriving DecidableEq

/-- Outcome of one probe request of the `addCluster` connectivity chain. -/
inductive ProbeResult
  | ok
  | err (e : ProbeError)
deriving DecidableEq

/-- The 401/403 test in `addCluster`:
`error?.status === 401 || error?.status === 403 || error?.statusCode === 401 || error?.statusCode === 403`. -/
def isAuthLimitedError (e : ProbeError) : Bool :=
  e.status == some 401 || e.status == some 403 ||
  e.statusCode == some 401 || e.statusCode == some 403

/-- `error?.message || 'Unknown error'`. -/
def causeMessage (e : ProbeError) : Str :=
  if e.message.isEmpty then "Unknown error".toList else e.message

/-- Result of a successful `addCluster`: the updated registry, the
configuration persisted through `saveConfiguration`, and whether the
limited-permissions warning was logged. -/
structure AddOutcome where
  clusters : List (Str × PulsarClusterConnection)
  persisted : List SavedClusterConfig
  warned : Bool
deriving DecidableEq

/-- `PulsarClientManager.addCluster`, with the three probe requests
(health check, `getClusters`, `getTenants`) passed in as their outcomes:
each later probe runs only if the earlier ones failed; a 401/403 from
`getTenants` is accepted with a warning; any other `getTenants` failure
aborts with the original cause message and registers nothing.  On success
the connection is registered and the configuration saved. -/
def addCluster (reg : List (Str × PulsarClusterConnection)) (conn : PulsarClusterConnection)
    (healthCheck : Bool) (clustersProbe tenantsProbe : ProbeResult) :
    Except Str AddOutcome :=
  let accept (warned : Bool) : Except Str AddOutcome :=
    let clusters := mapSet reg conn.name conn
    .ok ⟨clusters, saveConfiguration clusters, warned⟩
  if healthCheck then accept false
  else
    match clustersProbe with
    | .ok => accept false
    | .err _ =>
      match tenantsProbe with
      | .ok => accept false
      | .err e =>
        if isAuthLimitedError e then accept true
        else .error ("Failed to connect to cluster \"".toList ++ conn.name ++
          "\": ".toList ++ causeMessage e)

/-- `PartitionedTopicMetadata` (`{partitions: number}`); `0` means
non-partitioned. -/
structure PartitionedTopicMetadata where
  partitions : Nat
deriving DecidableEq

/-- One admin request issued by `PulsarClientManager.deleteTopic`. -/
inductive AdminCall
  | metadataFetch (topic : Str)
  | partitionedDelete (topic : Str) (force : Bool)
  | plainDelete (topic : Str) (force : Bool)
deriving DecidableEq

/-- `PulsarClientManager.deleteTopic` as the trace of admin requests it
issues, given the outcome of the metadata fetch and whether each delete
request succeeds.  The `catch` covers the whole `try` block, so a failing
delete also falls back to one plain delete. -/
def deleteTopicTrace (topic : Str) (force : Bool)
    (metadataResult : Except ProbeError PartitionedTopicMetadata)
    (partitionedDeleteOk plainDeleteOk : Bool) : List AdminCall :=
  match metadataResult with
  | .ok md =>
    if md.partitions > 0 then
      if partitionedDeleteOk then
        [.metadataFetch topic, .partitionedDelete topic force]
      else
        [.metadataFetch topic, .partitionedDelete topic force, .plainDelete topic force]
    else
      if plainDeleteOk then
        [.metadataFetch topic, .plainDelete topic force]
      else
        [.metadataFetch topic, .plainDelete topic force, .plainDelete topic force]
  | .error _ => [.metadataFetch topic, .plainDelete topic force]

/-! ## MessageConsumerWebview and MessageProducerWebview -/

/-- Consumer start position (`'latest' | 'earliest'`, defaulting to
`'latest'` at the call site). -/
inductive StartPosition
  | latest
  | earliest
deriving DecidableEq

/-- Key filter match mode (`'exact' | 'regex'`). -/
inductive KeyFilterMode
  | exact
  | regex
deriving DecidableEq

/-- A consumed message as stored by the consumer webview. -/
structure PulsarMessage where
  messageId : Str
  payload : Str
  publishTime : Str
  properties : List (Str × Str)
  key : Option Str
  redeliveryCount : Option Nat
deriving DecidableEq

/-- `connection.webServiceUrl.replace(/^http/, 'ws')`: substitute the
protocol once at the start (`http://` becomes `ws://`, `https://` becomes
`wss://`). -/
def replaceHttpWithWs (url : Str) : Str :=
  if "http".toList.isPrefixOf url then "ws".toList ++ url.drop 4 else url

/-- The consumer WebSocket URL built by
`MessageConsumerWebview.connectWebSocket`:
`${baseUrl}/ws/v2/consumer/persistent/${tenant}/${namespace}/${topicPath}/${subscription}?initialPosition=${initialPosition}`
where `topicPath` is `${topicName}-partition-${partition}` when a partition
index `>= 0` is supplied and the bare topic name otherwise.  No segment is
percent-encoded. -/
def consumerWsUrl (webServiceUrl tenant nspace topicName subscription : Str)
    (position : StartPosition) (partition : Option Int) : Str :=
  let baseUrl := replaceHttpWithWs webServiceUrl
  let initialPosition :=
    match position with
    | .earliest => "Earliest".toList
    | .latest => "Latest".toList
  let topicPath :=
    match partition with
    | some p => if 0 ≤ p then topicName ++ "-partition-".toList ++ natToStr p.toNat else topicName
    | none => topicName
  baseUrl ++ "/ws/v2/consumer/persistent/".toList ++ tenant ++ "/".toList ++
    nspace ++ "/".toList ++ topicPath ++ "/".toList ++ subscription ++
    "?initialPosition=".toList ++ initialPosition

/-- The producer WebSocket URL built by
`MessageProducerWebview.connectWebSocket`:
`${baseUrl}/ws/v2/producer/persistent/${tenant}/${namespace}/${topicPath}`. -/
def producerWsUrl (webServiceUrl tenant nspace topicName : Str)
    (partitionCount : Nat) (selectedPartition : Int) : Str :=
  let baseUrl := replaceHttpWithWs webServiceUrl
  let topicPath :=
    if partitionCount > 0 && 0 ≤ selectedPartition then
      topicName ++ "-partition-".toList ++ natToStr selectedPartition.toNat
    else topicName
  baseUrl ++ "/ws/v2/producer/persistent/".toList ++ tenant ++ "/".toList ++
    nspace ++ "/".toList ++ topicPath

/-- State of the consumer webview relevant to the messaging session: the
session holds its cluster connection lookup, the topic coordinates, the
partition count from metadata, a SINGLE optional WebSocket handle (`ws`,
identified by its URL), the stored messages, and the key-filter settings.
A compiled regular expression is an abstract match test `Str → Bool`. -/
structure ConsumerSessionState where
  clusterConn : Option PulsarClusterConnection
  tenant : Str
  nspace : Str
  topicName : Str
  partitionCount : Nat
  ws : Option Str
  subscription : Str
  keyFilter : Str
  keyFilterMode : KeyFilterMode
  autoStopOnMatch : Bool
  compiledKeyFilterRegex : Option (Str → Bool)
  messages : List PulsarMessage
  messageCount : Nat
  isConnected : Bool

/-- `MessageConsumerWebview.connectWebSocket`: if the cluster connection is
missing, post an error and open nothing; otherwise record the subscription,
build the URL for the selected partition (or the bare topic) and open exactly
one WebSocket, stored in the single `ws` field.  Returns the new state and
the list of connections this call opens. -/
def connectWebSocket (s : ConsumerSessionState) (subscription : Str)
    (position : StartPosition) (partition : Option Int) :
    ConsumerSessionState × List Str :=
  match s.clusterConn with
  | none => (s, [])
  | some conn =>
    let url := consumerWsUrl conn.webServiceUrl s.tenant s.nspace s.topicName
      subscription position partition
    ({ s with subscription := subscription, ws := some url }, [url])

/-- `MessageConsumerWebview.matchesKeyFilter`: no configured filter or a
missing/empty message key never matches; otherwise exact equality or the
pre-compiled regular expression's test, and `false` when no compiled
regular expression is available in regex mode. -/
def matchesKeyFilter (s : ConsumerSessionState) (messageKey : Option Str) : Bool :=
  if s.keyFilter.isEmpty then false
  else
    match messageKey with
    | none => false
    | some k =>
      if k.isEmpty then false
      else
        match s.keyFilterMode with
        | .exact => k == s.keyFilter
        | .regex =>
          match s.compiledKeyFilterRegex with
          | none => false
          | some test => test k

/-- `const hasActiveFilter = !!this.consumerState.keyFilter`. -/
def hasActiveFilter (s : ConsumerSessionState) : Bool :=
  !s.keyFilter.isEmpty

/-- The hide decision computed on message arrival:
`shouldHide = hasActiveFilter && !(hasActiveFilter && matchesKeyFilter(key))`. -/
def shouldHide (s : ConsumerSessionState) (messageKey : Option Str) : Bool :=
  hasActiveFilter s && !(hasActiveFilter s && matchesKeyFilter s messageKey)

/-- The `setKeyFilter` command handler: store filter, mode, and auto-stop;
in regex mode with a nonempty filter, keep the compiled pattern, and on a
compile failure (`compile = none`) clear the filter to inactive; otherwise
drop any compiled pattern. -/
def setKeyFilter (s : ConsumerSessionState) (keyFilter : Str) (mode : KeyFilterMode)
    (autoStopOnMatch : Bool) (compile : Option (Str → Bool)) : ConsumerSessionState :=
  let s := { s with keyFilter := keyFilter, keyFilterMode := mode,
                    autoStopOnMatch := autoStopOnMatch }
  if !s.keyFilter.isEmpty && s.keyFilterMode == KeyFilterMode.regex then
    match compile with
    | some test => { s with compiledKeyFilterRegex := some test }
    | none => { s with compiledKeyFilterRegex := none, keyFilter := [] }
  else
    { s with compiledKeyFilterRegex := none }

/-- The message-list update on arrival: `unshift` the new message, then
`pop()` the oldest once the list exceeds 100 entries. -/
def pushWithCap (msgs : List PulsarMessage) (m : PulsarMessage) : List PulsarMessage :=
  let msgs := m :: msgs
  if msgs.length > 100 then msgs.dropLast else msgs

/-- Message arrival applied to the session state: store the message (bounded)
and bump the received counter. -/
def handleIncomingMessage (s : ConsumerSessionState) (m : PulsarMessage) : ConsumerSessionState :=
  { s with messages := pushWithCap s.messages m, messageCount := s.messageCount + 1 }

/-- The `clearMessages` command handler: `this.messages = []`. -/
def clearMessagesOp (s : ConsumerSessionState) : ConsumerSessionState :=
  { s with messages := [] }

/-- WebSocket ready states; `opened` is `WebSocket.OPEN`. -/
inductive WsReadyState
  | connecting
  | opened
  | closing
  | closed
deriving DecidableEq

/-- A producer's WebSocket handle, abstracted to its ready state. -/
structure ProducerWs where
  readyState : WsReadyState
deriving DecidableEq

/-- The outbound produce frame built by `MessageProducerWebview.sendMessage`:
base64 payload, properties defaulting to `{}`, the per-call correlation id
`msg-${Date.now()}` in `context`, and the key only when truthy. -/
structure ProducerFrame where
  payload : Str
  properties : List (Str × Str)
  context : Str
  key : Option Str
deriving DecidableEq

/-- Result of one `sendMessage` call: either the not-connected error posted
to the webview (nothing queued, nothing sent) or the single frame sent on
the transport. -/
inductive SendResult
  | notConnectedError
  | sent (frame : ProducerFrame)
deriving DecidableEq

/-- `MessageProducerWebview.sendMessage`: only valid with a present, OPEN
WebSocket; otherwise it posts `WebSocket not connected` and returns without
queueing or sending.  When open, it sends one frame with the base64-encoded
UTF-8 payload and a fresh `msg-${Date.now()}` correlation id. -/
def sendMessage (ws : Option ProducerWs) (payload : Str) (key : Option Str)
    (properties : Option (List (Str × Str))) (now : Nat) : SendResult :=
  match ws with
  | none => .notConnectedError
  | some w =>
    if w.readyState == WsReadyState.opened then
      .sent
        { payload := base64Encode (utf8Encode payload)
          properties := properties.getD []
          context := "msg-".toList ++ natToStr now
          key :=
            match key with
            | some k => if k.isEmpty then none else some k
            | none => none }
    else .notConnectedError

/-! ## Demo values used by witnesses and counterexamples -/

/-- A concrete cluster connection for probe-chain instances. -/
def demoConn : PulsarClusterConnection :=
  ⟨"local".toList, "pulsar".toList, "http://localhost:8080".toList, none,
    "token".toList, none, none, none, none, none, none, none⟩

/-- A 500 response from the list-clusters probe. -/
def probeErr500 : ProbeError :=
  ⟨some 500, some 500, "HTTP 500: boom".toList⟩

/-- A 401 response from the list-tenants probe. -/
def probeErr401 : ProbeError :=
  ⟨some 401, some 401, "HTTP 401: Unauthorized".toList⟩

/-- A network-level failure (no HTTP status) from the list-tenants probe. -/
def probeErrNet : ProbeError :=
  ⟨none, none, "fetch failed".toList⟩

/-- A concrete cluster connection without a token. -/
def demoConnA : PulsarClusterConnection :=
  ⟨"prod".toList, "pulsar".toList, "https://broker:8443".toList,
    some "pulsar://broker:6650".toList, "token".toList, none,
    none, none, none, none, none, some false⟩

/-- The same connection as `demoConnA` but holding a secret token. -/
def demoConnB : PulsarClusterConnection :=
  { demoConnA with authToken := some "s3cret-token".toList }

/-- A concrete consumed message. -/
def demoMsg : PulsarMessage :=
  ⟨"CAAQAw==".toList, "hello".toList, "2026-01-01T00:00:00Z".toList, [], some "k1".toList, none⟩

/-- A consumer session on a 3-partition topic, cluster connection resolved. -/
def fanoutDemoSession : ConsumerSessionState :=
  { clusterConn := some demoConn
    tenant := "t".toList
    nspace := "n".toList
    topicName := "orders".toList
    partitionCount := 3
    ws := none
    subscription := []
    keyFilter := []
    keyFilterMode := .exact
    autoStopOnMatch := false
    compiledKeyFilterRegex := none
    messages := []
    messageCount := 0
    isConnected := false }

/-- A consumer session with an active exact key filter `abc`. -/
def filterDemoSession : ConsumerSessionState :=
  { fanoutDemoSession with keyFilter := "abc".toList, keyFilterMode := .exact }

/-! ## Helper lemmas -/

/-- `Map.set` followed by `get` on the same key yields the stored value. -/
theorem mapSet_lookup {α : Type} (m : List (Str × α)) (k : Str) (v : α) :
    (mapSet m k v).lookup k = some v := by
  induction m with
  | nil => simp [mapSet, List.lookup]
  | cons kv rest ih =>
    obtain ⟨k1, v1⟩ := kv
    by_cases h : k1 = k
    · simp [mapSet, h, List.lookup]
    · simp only [mapSet, if_neg h, List.lookup]
      have : (k == k1) = false := by
        simp [beq_eq_false_iff_ne]
        exact fun hk => h hk.symm
      simp [this, ih]

/-! ## Claim theorems -/

/-- Claim C4 (confirmed): topic-address parsing is total and tries, in order,
the fully-qualified regular-expression form (capturing the persistence mode),
then exactly three `/`-delimited segments (assumed persistent), then the
whole input as a local name under `public/default`; in particular
`parseTopic "t/n/name"` is persistent `t`/`n`/`name` and `parseTopic "bare"`
is persistent `public`/`default`/`bare`. -/
theorem parseTopic_tries_forms_in_order :
    (∀ s p, topicAddressMatch s = some p → parseTopic s = p) ∧
    (∀ s a b c, topicAddressMatch s = none → splitOnChar '/' s = [a, b, c] →
      parseTopic s = ⟨true, a, b, c⟩) ∧
    (∀ s, topicAddressMatch s = none → (splitOnChar '/' s).length ≠ 3 →
      parseTopic s = ⟨true, "public".toList, "default".toList, s⟩) ∧
    parseTopic "t/n/name".toList = ⟨true, "t".toList, "n".toList, "name".toList⟩ ∧
    parseTopic "bare".toList = ⟨true, "public".toList, "default".toList, "bare".toList⟩ ∧
    parseTopic "persistent://t/n/a/b".toList = ⟨true, "t".toList, "n".toList, "a/b".toList⟩ ∧
    parseTopic "non-persistent://x/y/z".toList = ⟨false, "x".toList, "y".toList, "z".toList⟩ := by
  refine ⟨?_, ?_, ?_, by decide, by decide, by decide, by decide⟩
  · intro s p h
    simp [parseTopic, h]
  · intro s a b c h h2
    simp [parseTopic, h, h2]
  · intro s h h3
    simp only [parseTopic, h]
    rcases hs : splitOnChar '/' s with _ | ⟨a, _ | ⟨b, _ | ⟨c, _ | ⟨d, tl⟩⟩⟩⟩ <;>
      simp_all

/-- Witness for C4: the second (three-segment) form at a concrete input. -/
theorem parseTopic_tries_forms_in_order_witness :
    parseTopic "x/y/z".toList = ⟨true, "x".toList, "y".toList, "z".toList⟩ :=
  parseTopic_tries_forms_in_order.2.1 "x/y/z".toList "x".toList "y".toList "z".toList
    (by decide) (by decide)

/-- Counterexample to claim C3: the topic-stats admin path and the consumer
streaming URL interpolate the topic-name segment raw; at the topic
`persistent://t/n/a b` the constructed paths contain the unencoded segment
`a b`, not its percent-encoding `a%20b`. -/
theorem path_encoding_counterexample :
    getTopicStatsPath "persistent://t/n/a b".toList =
      "/admin/v2/persistent/t/n/a b/stats".toList ∧
    encodeURIComponent "a b".toList = "a%20b".toList ∧
    getTopicStatsPath "persistent://t/n/a b".toList ≠
      "/admin/v2/persistent/t/n/".toList ++ encodeURIComponent "a b".toList ++ "/stats".toList ∧
    consumerWsUrl "http://h".toList "t".toList "n".toList "a b".toList "sub".toList
        .latest none =
      "ws://h/ws/v2/consumer/persistent/t/n/a b/sub?initialPosition=Latest".toList := by
  decide

/-- Claim C3 as amended (corrected): tenant- and namespace-level admin paths
percent-encode their segments, while topic-level admin paths built through
`parseTopic` and the streaming WebSocket URL interpolate the tenant,
namespace, and topic-name segments raw, without percent-encoding. -/
theorem path_encoding_split :
    (∀ tenant, getTenantInfoPath tenant =
      "/admin/v2/tenants/".toList ++ encodeURIComponent tenant) ∧
    (∀ tenant nspace, getNamespacePoliciesPath tenant nspace =
      "/admin/v2/namespaces/".toList ++ encodeURIComponent tenant ++ "/".toList ++
        encodeURIComponent nspace) ∧
    (∀ topic, getTopicStatsPath topic =
      "/admin/v2/".toList ++ domainSeg (parseTopic topic).persistent ++ "/".toList ++
        (parseTopic topic).tenant ++ "/".toList ++ (parseTopic topic).nspace ++ "/".toList ++
        (parseTopic topic).topicName ++ "/stats".toList) ∧
    (∀ topic, getTopicMetadataPath topic =
      "/admin/v2/".toList ++ domainSeg (parseTopic topic).persistent ++ "/".toList ++
        (parseTopic topic).tenant ++ "/".toList ++ (parseTopic topic).nspace ++ "/".toList ++
        (parseTopic topic).topicName ++ "/partitions".toList) ∧
    (∀ wsu tenant nspace topicName subscription,
      consumerWsUrl wsu tenant nspace topicName subscription .latest none =
        replaceHttpWithWs wsu ++ "/ws/v2/consumer/persistent/".toList ++ tenant ++
          "/".toList ++ nspace ++ "/".toList ++ topicName ++ "/".toList ++ subscription ++
          "?initialPosition=Latest".toList) := by
  refine ⟨fun _ => rfl, fun _ _ => rfl, fun _ => rfl, fun _ => rfl, fun _ _ _ _ _ => ?_⟩
  simp [consumerWsUrl]

/-- Counterexample to claim C6: from the plain listing
`["orders-partition-0","orders-partition-1","widgets"]` alone (the
partitioned-topics listing reporting nothing), topic enumeration yields
only `widgets`; the stripped base name `orders` never re-enters the
deduplicated set, contradicting the claimed `{orders, widgets}`. -/
theorem topicEnumeration_counterexample :
    topicEnumeration
      ["orders-partition-0".toList, "orders-partition-1".toList, "widgets".toList] [] =
      [("widgets".toList, 0)] ∧
    topicEnumeration
      ["orders-partition-0".toList, "orders-partition-1".toList, "widgets".toList] [] ≠
      [("orders".toList, 2), ("widgets".toList, 0)] := by
  decide

/-- Claim C6 as amended (corrected): with the same plain listing and the
partitioned-topics listing also reporting `orders` (as the broker does
for a partitioned topic), enumeration strips the `-partition-N` entries
and yields the deduplicated set `{orders, widgets}` with `orders`
assigned partition count 2. -/
theorem topicEnumeration_with_partitioned_listing :
    topicEnumeration
      ["orders-partition-0".toList, "orders-partition-1".toList, "widgets".toList]
      ["orders".toList] =
      [("orders".toList, 2), ("widgets".toList, 0)] := by
  decide

/-- Claim C2 (confirmed): the probe chain short-circuits on an earlier
success; when health check and list-clusters have failed, a 401/403 from
list-tenants still registers and persists the cluster (with the warning),
and any other list-tenants failure aborts with the original cause message
and registers nothing. -/
theorem addCluster_probe_chain (reg : List (Str × PulsarClusterConnection))
    (conn : PulsarClusterConnection) (e1 e : ProbeError) :
    (∀ cp tp, addCluster reg conn true cp tp =
      .ok ⟨mapSet reg conn.name conn, saveConfiguration (mapSet reg conn.name conn), false⟩) ∧
    (∀ tp, addCluster reg conn false .ok tp =
      .ok ⟨mapSet reg conn.name conn, saveConfiguration (mapSet reg conn.name conn), false⟩) ∧
    (isAuthLimitedError e = true →
      addCluster reg conn false (.err e1) (.err e) =
        .ok ⟨mapSet reg conn.name conn, saveConfiguration (mapSet reg conn.name conn), true⟩ ∧
      (mapSet reg conn.name conn).lookup conn.name = some conn) ∧
    (isAuthLimitedError e = false →
      addCluster reg conn false (.err e1) (.err e) =
        .error ("Failed to connect to cluster \"".toList ++ conn.name ++
          "\": ".toList ++ causeMessage e)) := by
  refine ⟨fun cp tp => rfl, fun tp => rfl, fun h => ⟨?_, mapSet_lookup reg conn.name conn⟩,
    fun h => ?_⟩ <;> simp [addCluster, h]

/-- Witness for C2: a concrete 401 from list-tenants is accepted with a
warning, a concrete network error aborts with the original cause message. -/
theorem addCluster_probe_chain_witness :
    addCluster [] demoConn false (.err probeErr500) (.err probeErr401) =
      .ok ⟨mapSet [] demoConn.name demoConn,
        saveConfiguration (mapSet [] demoConn.name demoConn), true⟩ ∧
    addCluster [] demoConn false (.err probeErr500) (.err probeErrNet) =
      .error ("Failed to connect to cluster \"".toList ++ demoConn.name ++
        "\": ".toList ++ causeMessage probeErrNet) :=
  ⟨((addCluster_probe_chain [] demoConn probeErr500 probeErr401).2.2.1 (by decide)).1,
   (addCluster_probe_chain [] demoConn probeErr500 probeErrNet).2.2.2 (by decide)⟩

/-- Claim C7 (confirmed): `deleteTopic` fetches partition metadata first;
metadata reporting partitions > 0 leads to the partitioned-delete request,
metadata reporting 0 leads to the plain delete, and a failed metadata fetch
still issues the plain delete instead of erroring out. -/
theorem deleteTopic_metadata_cases (topic : Str) (force : Bool)
    (md : PartitionedTopicMetadata) (e : ProbeError) (pdOk plOk : Bool) :
    (md.partitions > 0 →
      AdminCall.partitionedDelete topic force ∈ deleteTopicTrace topic force (.ok md) pdOk plOk) ∧
    (md.partitions = 0 →
      AdminCall.plainDelete topic force ∈ deleteTopicTrace topic force (.ok md) pdOk plOk ∧
      AdminCall.partitionedDelete topic force ∉ deleteTopicTrace topic force (.ok md) pdOk plOk) ∧
    (deleteTopicTrace topic force (.error e) pdOk plOk =
      [.metadataFetch topic, .plainDelete topic force]) := by
  refine ⟨fun h => ?_, fun h => ?_, rfl⟩
  · cases pdOk <;> simp [deleteTopicTrace, h]
  · cases plOk <;> simp [deleteTopicTrace, h]

/-- Witness for C7: concrete 2-partition metadata leads to a partitioned
delete; a concrete failed metadata fetch still issues the plain delete. -/
theorem deleteTopic_metadata_cases_witness :
    AdminCall.partitionedDelete "t/n/a".toList false ∈
      deleteTopicTrace "t/n/a".toList false (.ok ⟨2⟩) true true ∧
    deleteTopicTrace "t/n/a".toList false (.error probeErrNet) true true =
      [.metadataFetch "t/n/a".toList, .plainDelete "t/n/a".toList false] :=
  ⟨(deleteTopic_metadata_cases "t/n/a".toList false ⟨2⟩ probeErrNet true true).1 (by decide),
   (deleteTopic_metadata_cases "t/n/a".toList false ⟨2⟩ probeErrNet true true).2.2⟩

/-- Claim C9 (confirmed): persisting the cluster configuration is
independent of every cluster's `authToken`: two registries that agree
after scrubbing the tokens persist identical configuration (the persisted
record carries only the six non-secret fields). -/
theorem saveConfiguration_independent_of_tokens
    (cs1 cs2 : List (Str × PulsarClusterConnection))
    (h : cs1.map (fun kv => (kv.1, scrubToken kv.2)) =
         cs2.map (fun kv => (kv.1, scrubToken kv.2))) :
    saveConfiguration cs1 = saveConfiguration cs2 := by
  have key : ∀ cs : List (Str × PulsarClusterConnection),
      saveConfiguration cs =
        (cs.map (fun kv => (kv.1, scrubToken kv.2))).map (fun kv => savedClusterOf kv.2) := by
    intro cs
    simp only [saveConfiguration, List.map_map]
    rfl
  rw [key cs1, key cs2, h]

/-- Witness for C9: registries differing only in one cluster's secret token
persist the same configuration. -/
theorem saveConfiguration_independent_of_tokens_witness :
    saveConfiguration [(demoConnA.name, demoConnA)] =
      saveConfiguration [(demoConnB.name, demoConnB)] :=
  saveConfiguration_independent_of_tokens
    [(demoConnA.name, demoConnA)] [(demoConnB.name, demoConnB)] (by decide)

/-- Counterexample to claim C1: on a session whose topic has 3 partitions,
one consumer connect opens exactly 1 underlying streaming connection, not 3
— the session holds a single `ws` handle and fans out over nothing. -/
theorem consumer_fanout_counterexample :
    fanoutDemoSession.partitionCount = 3 ∧
    ((connectWebSocket fanoutDemoSession "sub".toList .latest (some 0)).2).length = 1 ∧
    ((connectWebSocket fanoutDemoSession "sub".toList .latest (some 0)).2).length ≠ 3 := by
  refine ⟨rfl, rfl, by decide⟩

/-- Claim C1 as amended (corrected): whenever the cluster connection
resolves, a consumer connect opens exactly ONE streaming connection
regardless of the partition count — to the selected partition's sub-topic
(`name-partition-p`) when a partition index `p ≥ 0` is supplied, else to
the bare topic — stored in the session's single `ws` field and subscribing
under the given subscription name. -/
theorem consumer_connect_opens_one (s : ConsumerSessionState) (subscription : Str)
    (position : StartPosition) (partition : Option Int) (conn : PulsarClusterConnection)
    (h : s.clusterConn = some conn) :
    (connectWebSocket s subscription position partition).2 =
      [consumerWsUrl conn.webServiceUrl s.tenant s.nspace s.topicName
        subscription position partition] ∧
    ((connectWebSocket s subscription position partition).2).length = 1 ∧
    ((connectWebSocket s subscription position partition).1).ws =
      some (consumerWsUrl conn.webServiceUrl s.tenant s.nspace s.topicName
        subscription position partition) ∧
    ((connectWebSocket s subscription position partition).1).subscription = subscription := by
  simp [connectWebSocket, h]

/-- Witness for C1: the amended single-connection property at a concrete
3-partition session. -/
theorem consumer_connect_opens_one_witness :
    ((connectWebSocket fanoutDemoSession "sub".toList .latest (some 2)).2).length = 1 :=
  (consumer_connect_opens_one fanoutDemoSession "sub".toList .latest (some 2) demoConn
    rfl).2.1

/-- Claim C5 (confirmed): with no filter configured neither match nor hide
fires; with a filter and a missing (or empty, JavaScript-falsy) key nothing
matches; otherwise matching is exact equality in exact mode and the
pre-compiled regular expression's test in regex mode (as installed by
`setKeyFilter`); and a message is hidden exactly when a filter is active
and it does not match. -/
theorem keyFilter_matching_semantics (s : ConsumerSessionState) (k : Option Str) :
    (s.keyFilter = [] → matchesKeyFilter s k = false ∧ shouldHide s k = false) ∧
    (s.keyFilter ≠ [] → matchesKeyFilter s none = false ∧ matchesKeyFilter s (some []) = false) ∧
    (∀ key, key ≠ [] → s.keyFilter ≠ [] → s.keyFilterMode = .exact →
      matchesKeyFilter s (some key) = (key == s.keyFilter)) ∧
    (∀ keyFilter autoStop test key, keyFilter ≠ [] → key ≠ [] →
      matchesKeyFilter (setKeyFilter s keyFilter .regex autoStop (some test)) (some key) =
        test key) ∧
    (shouldHide s k = true ↔ (s.keyFilter ≠ [] ∧ matchesKeyFilter s k = false)) := by
  refine ⟨fun h => ?_, fun h => ?_, fun key hk hf hm => ?_, fun kf auto test key hkf hk => ?_, ?_⟩
  · simp [matchesKeyFilter, shouldHide, hasActiveFilter, h]
  · simp [matchesKeyFilter, List.isEmpty_iff, h]
  · cases key with
    | nil => exact absurd rfl hk
    | cons c cs =>
      simp only [matchesKeyFilter, List.isEmpty_iff, if_neg hf, hm]
      simp
  · cases kf with
    | nil => exact absurd rfl hkf
    | cons c cs =>
      cases key with
      | nil => exact absurd rfl hk
      | cons d ds => simp [setKeyFilter, matchesKeyFilter]
  · cases hm : matchesKeyFilter s k <;>
      cases hf : s.keyFilter.isEmpty <;>
        simp_all [shouldHide, hasActiveFilter, List.isEmpty_iff, matchesKeyFilter]

/-- Witness for C5: with the exact filter `abc`, the key `abc` matches by
string equality and hiding is exactly filter-active-and-no-match. -/
theorem keyFilter_matching_semantics_witness :
    matchesKeyFilter filterDemoSession (some "abc".toList) =
      ("abc".toList == "abc".toList) ∧
    (shouldHide filterDemoSession (some "xyz".toList) = true ↔
      (filterDemoSession.keyFilter ≠ [] ∧
        matchesKeyFilter filterDemoSession (some "xyz".toList) = false)) :=
  ⟨(keyFilter_matching_semantics filterDemoSession (some "abc".toList)).2.2.1
      "abc".toList (by decide) (by decide) rfl,
   (keyFilter_matching_semantics filterDemoSession (some "xyz".toList)).2.2.2.2⟩

/-- Claim C8 (confirmed): a producer send with a missing or non-OPEN
WebSocket yields only the not-connected error — no frame is queued or
sent — and a send on an OPEN socket sends exactly the frame with the
base64-encoded payload and the per-call `msg-${Date.now()}` correlation
id. -/
theorem producer_send_requires_open (w : ProducerWs) (payload : Str)
    (key : Option Str) (properties : Option (List (Str × Str))) (now : Nat) :
    (sendMessage none payload key properties now = .notConnectedError) ∧
    (w.readyState ≠ .opened →
      sendMessage (some w) payload key properties now = .notConnectedError) ∧
    (w.readyState = .opened →
      sendMessage (some w) payload key properties now =
        .sent
          { payload := base64Encode (utf8Encode payload)
            properties := properties.getD []
            context := "msg-".toList ++ natToStr now
            key :=
              match key with
              | some k => if k.isEmpty then none else some k
              | none => none }) := by
  refine ⟨rfl, fun h => ?_, fun h => ?_⟩ <;> simp [sendMessage, h]

/-- Witness for C8: a concrete send on an OPEN socket emits the base64
payload `aGk=` for `hi` with correlation id `msg-5`. -/
theorem producer_send_requires_open_witness :
    sendMessage (some ⟨.opened⟩) "hi".toList none none 5 =
      .sent ⟨"aGk=".toList, [], "msg-5".toList, none⟩ :=
  ((producer_send_requires_open ⟨.opened⟩ "hi".toList none none 5).2.2 rfl).trans
    (by decide)

/-- Normal form of the arrival update: the new message is prepended and the
last (oldest) stored message is dropped exactly when the list was full. -/
theorem pushWithCap_eq (msgs : List PulsarMessage) (m : PulsarMessage) :
    pushWithCap msgs m = m :: (if msgs.length >= 100 then msgs.dropLast else msgs) := by
  rcases msgs with _ | ⟨x, xs⟩
  · simp [pushWithCap]
  · simp only [pushWithCap, List.length_cons]
    by_cases h : xs.length + 1 >= 100
    · rw [if_pos (by omega : xs.length + 1 + 1 > 100), if_pos h]
      simp [List.dropLast]
    · rw [if_neg (by omega : ¬ xs.length + 1 + 1 > 100), if_neg h]

/-- Claim C10 (confirmed, implicit invariant): the stored message list
stays bounded by 100 across every session operation; arrival prepends the
newest message (newest-first order) and drops the oldest exactly when the
bound would be exceeded; clearing resets to empty. -/
theorem consumer_message_list_bounded (msgs : List PulsarMessage) (m : PulsarMessage)
    (h : msgs.length <= 100) :
    (pushWithCap msgs m).length <= 100 ∧
    (pushWithCap msgs m).head? = some m ∧
    (msgs.length < 100 → pushWithCap msgs m = m :: msgs) ∧
    (msgs.length = 100 → pushWithCap msgs m = m :: msgs.dropLast) ∧
    (∀ s : ConsumerSessionState, (clearMessagesOp s).messages.length <= 100) ∧
    (∀ s : ConsumerSessionState, s.messages = msgs →
      (handleIncomingMessage s m).messages.length <= 100) := by
  have hbound : (pushWithCap msgs m).length <= 100 := by
    rw [pushWithCap_eq]
    by_cases hf : msgs.length >= 100
    · rw [if_pos hf]
      simp [List.length_dropLast]
      omega
    · rw [if_neg hf]
      simp
      omega
  refine ⟨hbound, ?_, fun hlt => ?_, fun heq => ?_,
    fun s => by simp [clearMessagesOp], fun s hs => ?_⟩
  · rw [pushWithCap_eq]
    rfl
  · rw [pushWithCap_eq, if_neg (by omega : ¬ msgs.length >= 100)]
  · rw [pushWithCap_eq, if_pos (by omega : msgs.length >= 100)]
  · simpa [handleIncomingMessage, hs] using hbound

/-- Witness for C10: arrival on an empty list stores exactly the new
message within the bound. -/
theorem consumer_message_list_bounded_witness :
    (pushWithCap [] demoMsg).length ≤ 100 ∧ pushWithCap [] demoMsg = [demoMsg] :=
  ⟨(consumer_message_list_bounded [] demoMsg (by decide)).1,
   (consumer_message_list_bounded [] demoMsg (by decide)).2.2.1 (by decide)⟩
